import Mathlib

/-!
Verification of the risk & originality scoring engine of the
`figma-multipage` proctoring system.

The definitions below are a shallow embedding of the Python sources:
* `proctoring/backend/analysis/behavior_analyzer.py` (event rule engine,
  pattern detector, final-score combiner),
* `proctoring/backend/analysis/risk_scorer.py` (session score store),
* `proctoring/risk_scorer.py` (`calculate_risk` and its rule scoring),
* `config/scibox.py` (`analyze_code_originality` fallback behaviour),
* `proctoring/server/analyzers/code_originality.py` (cosine similarity),
* `proctoring/code_analyzer.py` (code normalization and hashing),
* `backend/app/scibox_client.py` (offline originality heuristic).

Python numbers are modelled as rationals (`ℚ`), machine floats for the
cosine-similarity function as reals, dictionaries as association lists,
and fallible operations as `Except`/`Option` values.
-/

namespace Proctoring

/-- Python's binary `min`, written out so that it kernel-reduces on `ℚ`. -/
def pymin (a b : ℚ) : ℚ := if a ≤ b then a else b

/-- Python's binary `max`, written out so that it kernel-reduces on `ℚ`. -/
def pymax (a b : ℚ) : ℚ := if a ≤ b then b else a

theorem pymin_le_left (a b : ℚ) : pymin a b ≤ a := by
  unfold pymin; split_ifs with h
  · exact le_refl a
  · exact le_of_not_le h

theorem le_pymin (a b c : ℚ) (ha : c ≤ a) (hb : c ≤ b) : c ≤ pymin a b := by
  unfold pymin; split_ifs <;> assumption

/-- A value stored in an event's `metadata` dictionary: either a JSON
integer or a JSON string (the only shapes the analyzer reads). -/
inductive MetaVal where
  | i : Int → MetaVal
  | s : String → MetaVal
deriving DecidableEq, Repr

/-- The `metadata` dictionary of an event, as an association list.
`[]` models both a missing `metadata` key and an empty dict: Python's
`event.get("metadata")` treats both as falsy. -/
abbrev Metadata := List (String × MetaVal)

/-- One proctoring event, as consumed by `BehaviorAnalyzer`
(`behavior_analyzer.py`): `event_type`, `metadata` and the millisecond
`timestamp` (`event.get("timestamp", 0)` defaults to `0`, which the
`timestamp := 0` default mirrors). -/
structure Event where
  event_type : String
  metadata : Metadata := []
  timestamp : ℚ := 0
deriving DecidableEq, Repr

/-- `metadata.get(k, d)` for an integer-valued key.  The source `.get`
returns whatever value is stored; every numeric use site then compares or
multiplies it, which raises `TypeError` on a string value, so the `.s`
case is unreachable in runs the theorems cover (they restrict to
integer-typed `textLength`/`currentCount` metadata). -/
def Event.metaIntD (e : Event) (k : String) (d : Int) : Int :=
  match e.metadata.lookup k with
  | some (.i n) => n
  | some (.s _) => d
  | none => d

/-- One row of `BehaviorAnalyzer._init_event_rules`. -/
structure EventRule where
  base_score : ℚ
  multiplier : ℚ
  critical : Bool
  dynamic : Bool
deriving DecidableEq, Repr

/-- The static rule table from `BehaviorAnalyzer._init_event_rules`
(`self.event_rules.get(event_type)`): unknown types yield `none`. -/
def event_rules (event_type : String) : Option EventRule :=
  if event_type = "devtools_detected" then some ⟨30, 3/2, true, false⟩
  else if event_type = "extension_detected" then some ⟨20, 6/5, true, false⟩
  else if event_type = "clipboard_paste" then some ⟨5, 13/10, false, true⟩
  else if event_type = "clipboard_copy" then some ⟨0, 1, false, false⟩
  else if event_type = "tab_switch" then some ⟨10, 11/10, false, false⟩
  else if event_type = "visibility_change" then some ⟨15, 6/5, false, false⟩
  else if event_type = "face_detection" then some ⟨0, 1, false, true⟩
  else none

/-- `BehaviorAnalyzer._calculate_dynamic_score`: metadata-dependent score
for `clipboard_paste` (text-length bands added to the base score) and
`face_detection` (severity-dependent, overriding the base score). -/
def calculate_dynamic_score (event : Event) (rule : EventRule) : ℚ :=
  let base_score := rule.base_score
  if event.event_type = "clipboard_paste" then
    let text_length := event.metaIntD "textLength" 0
    if 500 < text_length then base_score + 40
    else if 200 < text_length then base_score + 25
    else if 100 < text_length then base_score + 15
    else if 50 < text_length then base_score + 8
    else base_score + 3
  else if event.event_type = "face_detection" then
    let severity := (event.metadata.lookup "severity").getD (.s "normal")
    if severity = .s "critical" then
      (15 : ℚ) * (event.metaIntD "currentCount" 1 : ℤ)
    else if severity = .s "warning" then 3
    else 0
  else base_score

/-- Accumulator of the `for event in events` loop of
`BehaviorAnalyzer._analyze_by_rules`: running total, per-type occurrence
counts (`defaultdict(int)`) and the list of critical event types. -/
structure RuleAcc where
  total : ℚ
  counts : String → ℕ
  critical_events : List String

/-- One iteration of the loop in `BehaviorAnalyzer._analyze_by_rules`. -/
def rule_step (acc : RuleAcc) (event : Event) : RuleAcc :=
  match event_rules event.event_type with
  | none => acc
  | some rule =>
    let score0 : ℚ :=
      if rule.dynamic ∧ event.metadata ≠ [] then calculate_dynamic_score event rule
      else rule.base_score
    let counts' : String → ℕ :=
      fun t => if t = event.event_type then acc.counts event.event_type + 1 else acc.counts t
    let cnt := counts' event.event_type
    let score := if 1 < cnt then score0 * rule.multiplier ^ (cnt - 1) else score0
    { total := acc.total + score
      counts := counts'
      critical_events :=
        if rule.critical then acc.critical_events ++ [event.event_type]
        else acc.critical_events }

/-- Result of `BehaviorAnalyzer._analyze_by_rules`. -/
structure RuleAnalysis where
  score : ℚ
  critical_count : ℕ
  critical_events : List String
  event_counts : String → ℕ

/-- `BehaviorAnalyzer._analyze_by_rules`: fold the rule table over the
event list and clamp the total from above (`min(100, total_score)`). -/
def analyze_by_rules (events : List Event) : RuleAnalysis :=
  let acc := events.foldl rule_step ⟨0, fun _ => 0, []⟩
  { score := pymin 100 acc.total
    critical_count := acc.critical_events.length
    critical_events := acc.critical_events
    event_counts := acc.counts }

/-- A suspicious pattern produced by
`BehaviorAnalyzer._detect_suspicious_patterns`.  Only the `type` and
`severity` fields of the Python pattern dicts are modelled: they are the
only fields read downstream (`_calculate_final_score`,
`_get_flagged_events`); the free-text description and count fields are
ignored by all consumers. -/
structure Pattern where
  ptype : String
  severity : String
deriving DecidableEq, Repr

/-- `e.get("metadata", {}).get("severity") == v` as used by the pattern
detector (note: the detector's default is `None`, not `"normal"`). -/
def meta_severity_is (e : Event) (v : String) : Bool :=
  match e.metadata.lookup "severity" with
  | some (.s w) => w = v
  | _ => false

/-- Pairwise absolute time differences of consecutive elements, as built
by the `for i in range(len(recent_pastes) - 1)` loop. -/
def adjacent_abs_diffs : List ℚ → List ℚ
  | a :: b :: rest => |a - b| :: adjacent_abs_diffs (b :: rest)
  | _ => []

/-- `sorted(paste_events, key=lambda x: x.get("timestamp", 0), reverse=True)`:
a stable descending sort by timestamp. -/
def sort_by_timestamp_desc (events : List Event) : List Event :=
  events.mergeSort (fun a b => b.timestamp ≤ a.timestamp)

/-- `BehaviorAnalyzer._detect_suspicious_patterns`: the six co-occurrence
and burst patterns, each contributing at most one entry, in source order. -/
def detect_suspicious_patterns (events : List Event) : List Pattern :=
  let paste_events := events.filter (·.event_type = "clipboard_paste")
  let rapid :=
    if 3 < paste_events.length then
      let recent_pastes := (sort_by_timestamp_desc paste_events).take 5
      if 2 ≤ recent_pastes.length then
        let time_diffs := adjacent_abs_diffs (recent_pastes.map (·.timestamp))
        if time_diffs.any (fun d => decide (d < 5000)) then
          [Pattern.mk "rapid_pasting" "high"]
        else []
      else []
    else []
  let devtools_events := events.filter (·.event_type = "devtools_detected")
  let devtools_paste :=
    if devtools_events ≠ [] ∧ paste_events ≠ [] then
      [Pattern.mk "devtools_with_paste" "critical"]
    else []
  let extension_events := events.filter (·.event_type = "extension_detected")
  let ext_large :=
    if extension_events ≠ [] then
      let large_pastes := paste_events.filter (fun e => 200 < e.metaIntD "textLength" 0)
      if large_pastes ≠ [] then [Pattern.mk "extension_with_large_paste" "high"] else []
    else []
  let tab_switches := events.filter (·.event_type = "tab_switch")
  let excessive_tabs :=
    if 5 < tab_switches.length then [Pattern.mk "excessive_tab_switching" "medium"] else []
  let face_detection_events := events.filter (·.event_type = "face_detection")
  let critical_faces := face_detection_events.filter (meta_severity_is · "critical")
  let multiple_people :=
    if 0 < critical_faces.length then [Pattern.mk "multiple_people_detected" "critical"] else []
  let warning_faces := face_detection_events.filter (meta_severity_is · "warning")
  let frequent_out :=
    if 5 < warning_faces.length then [Pattern.mk "frequent_disappearance" "high"] else []
  rapid ++ devtools_paste ++ ext_large ++ excessive_tabs ++ multiple_people ++ frequent_out

/-- `BehaviorAnalyzer._calculate_final_score`: rule score plus fixed
severity bonuses per fired pattern. -/
def calculate_final_score (rule_score : ℚ) (patterns : List Pattern) : ℚ :=
  patterns.foldl
    (fun acc p =>
      if p.severity = "critical" then acc + 30
      else if p.severity = "high" then acc + 20
      else if p.severity = "medium" then acc + 10
      else acc)
    rule_score

/-- `set.add`, modelled on lists: append only when absent, so the list
behaves as a set and membership matches Python's `in`. -/
def add_flag (l : List String) (x : String) : List String :=
  if x ∈ l then l else l ++ [x]

/-- `BehaviorAnalyzer._get_flagged_events`: union of critical event types
and the event types implicated by each fired pattern. -/
def get_flagged_events (rule_analysis : RuleAnalysis) (patterns : List Pattern) : List String :=
  let flagged := rule_analysis.critical_events.foldl add_flag []
  patterns.foldl
    (fun fl p =>
      if p.ptype = "rapid_pasting" then add_flag fl "clipboard_paste"
      else if p.ptype = "devtools_with_paste" then
        add_flag (add_flag fl "devtools_detected") "clipboard_paste"
      else if p.ptype = "extension_with_large_paste" then
        add_flag (add_flag fl "extension_detected") "clipboard_paste"
      else if p.ptype = "excessive_tab_switching" then add_flag fl "tab_switch"
      else if p.ptype = "multiple_people_detected" then add_flag fl "face_detection"
      else if p.ptype = "frequent_disappearance" then add_flag fl "face_detection"
      else fl)
    flagged

/-- The analysis record returned by `BehaviorAnalyzer.analyze_session`
(the fields the claims are about). -/
structure SessionAnalysis where
  rule_based_score : ℚ
  flagged_events : List String
  final_score : ℚ
deriving Repr

/-- `BehaviorAnalyzer.analyze_session`, applied to the event list the
database query returns: rule pass, pattern pass, pattern bonuses, then
the final clamp `min(100, max(0, final_score))`. -/
def analyze_session_events (events : List Event) : SessionAnalysis :=
  if events = [] then ⟨0, [], 0⟩
  else
    let rule_analysis := analyze_by_rules events
    let patterns := detect_suspicious_patterns events
    let final_score := calculate_final_score rule_analysis.score patterns
    { rule_based_score := rule_analysis.score
      flagged_events := get_flagged_events rule_analysis patterns
      final_score := pymin 100 (pymax 0 final_score) }

/-! ## Session score store (`proctoring/backend/analysis/risk_scorer.py`)

The `proctoring_scores` table has one row per session (`session_id` is
the conflict key), modelled as an association list. -/

/-- One row of `proctoring_scores`.  `llm_recommendation`/`llm_reasoning`
are set only by the dedicated `UPDATE` in `request_llm_analysis`; the
upsert of `update_session_score` leaves them alone on conflict. -/
structure SessionScore where
  rule_based_score : ℚ
  llm_risk_score : Option ℚ
  final_score : ℚ
  flagged_events : List String
  llm_recommendation : Option String
  llm_reasoning : Option String
deriving DecidableEq, Repr

/-- The score store: at most one row per `session_id`. -/
abbrev ScoreDB := List (String × SessionScore)

/-- `INSERT ... ON CONFLICT (session_id) DO UPDATE`: replace the existing
row's listed columns, or append a fresh row. -/
def db_upsert : ScoreDB → String → (Option SessionScore → SessionScore) → ScoreDB
  | [], sid, f => [(sid, f none)]
  | (k, v) :: rest, sid, f =>
    if k = sid then (k, f (some v)) :: rest
    else (k, v) :: db_upsert rest sid f

/-- `RiskScorer.update_session_score`: compute the final score
(`(rule + llm) / 2` when an LLM score is given, else the rule score) and
upsert the row.  On conflict the statement overwrites `rule_based_score`,
`llm_risk_score`, `final_score` and `flagged_events` and leaves
`llm_recommendation`/`llm_reasoning` untouched. -/
def update_session_score (db : ScoreDB) (session_id : String) (rule_based_score : ℚ)
    (flagged_events : List String) (llm_risk_score : Option ℚ) : ScoreDB :=
  let final_score : ℚ :=
    match llm_risk_score with
    | some llm => (rule_based_score + llm) / 2
    | none => rule_based_score
  db_upsert db session_id fun old =>
    { rule_based_score := rule_based_score
      llm_risk_score := llm_risk_score
      final_score := final_score
      flagged_events := flagged_events
      llm_recommendation := match old with | some o => o.llm_recommendation | none => none
      llm_reasoning := match old with | some o => o.llm_reasoning | none => none }

/-- `RiskScorer.get_session_score` (one row per session, so the
`ORDER BY ... LIMIT 1` is just the row lookup). -/
def get_session_score (db : ScoreDB) (session_id : String) : Option SessionScore :=
  db.lookup session_id

/-- The `rule_based_score` the store reports for a session, with the `0`
default `flag_suspicious_code` uses for a missing row. -/
def stored_rule (db : ScoreDB) (session_id : String) : ℚ :=
  match get_session_score db session_id with
  | some row => row.rule_based_score
  | none => 0

/-- The `flagged_events` the store reports for a session (`[]` when the
row is missing). -/
def stored_flagged (db : ScoreDB) (session_id : String) : List String :=
  match get_session_score db session_id with
  | some row => row.flagged_events
  | none => []

/-- The `final_score` column of a session's row, if any. -/
def stored_final (db : ScoreDB) (session_id : String) : Option ℚ :=
  (get_session_score db session_id).map SessionScore.final_score

/-- The `llm_risk_score` column of a session's row, if any. -/
def stored_llm (db : ScoreDB) (session_id : String) : Option (Option ℚ) :=
  (get_session_score db session_id).map SessionScore.llm_risk_score

/-- `RiskScorer.flag_suspicious_code`: read the current row, add the
`max(0, 50 - originality_score)`-style penalty (the source only adds it
when `originality_score < 50`), clamp at 100, union `"suspicious_code"`
into the flagged list, and store via `update_session_score` (no LLM
score).  The `suspicious_patterns` argument is unused by the source. -/
def flag_suspicious_code (db : ScoreDB) (session_id : String)
    (originality_score : ℤ) (_suspicious_patterns : List String) : ScoreDB :=
  let rule_based_score := stored_rule db session_id
  let rule_based_score :=
    if originality_score < 50 then
      pymin 100 (rule_based_score + ((50 - originality_score : ℤ) : ℚ))
    else rule_based_score
  let flagged_events := stored_flagged db session_id
  let flagged_events :=
    if "suspicious_code" ∈ flagged_events then flagged_events
    else flagged_events ++ ["suspicious_code"]
  update_session_score db session_id rule_based_score flagged_events none

/-- The parsed LLM verdict consumed by `request_llm_analysis`
(`llm_result.get("risk_score")` may be absent, hence the `Option`). -/
structure LlmResult where
  risk_score : Option ℚ
  flagged_events : List String
  recommendation : Option String
  reasoning : Option String
deriving DecidableEq, Repr

/-- The trailing `UPDATE proctoring_scores SET llm_recommendation,
llm_reasoning WHERE session_id = ...` of `request_llm_analysis` (a plain
update: a missing row is left missing). -/
def db_set_recommendation : ScoreDB → String → Option String → Option String → ScoreDB
  | [], _, _, _ => []
  | (k, v) :: rest, sid, recommendation, reasoning =>
    if k = sid then
      (k, { v with llm_recommendation := recommendation, llm_reasoning := reasoning }) :: rest
    else (k, v) :: db_set_recommendation rest sid recommendation reasoning

/-- `RiskScorer.request_llm_analysis`, given the parsed LLM verdict: on a
cache hit the store is untouched; otherwise the verdict is saved via
`update_session_score(session_id, rule_based_score=0, ...)` — the literal
`0` from the source (its comment claims the rule score "is updated
separately") — followed by the recommendation `UPDATE`. -/
def request_llm_analysis (cache_hit : Bool) (db : ScoreDB) (session_id : String)
    (llm_result : LlmResult) : ScoreDB :=
  if cache_hit then db
  else
    let db1 := update_session_score db session_id 0 llm_result.flagged_events llm_result.risk_score
    db_set_recommendation db1 session_id llm_result.recommendation llm_result.reasoning

/-! ## The duplicate risk scorer (`proctoring/risk_scorer.py`)

`RiskScorer.calculate_risk` there works on flat event dicts keyed by
`"type"` with an optional top-level `"textLength"`. -/

/-- A flat proctoring event as consumed by `proctoring/risk_scorer.py`
(`event.get("type", "unknown")`, `event.get("textLength", 0)`). -/
structure FlatEvent where
  etype : String
  textLength : Int := 0
deriving DecidableEq, Repr

/-- `self.event_weights` of `proctoring/risk_scorer.py`, with the `0`
default of `event_weights.get(event_type, 0)`. -/
def event_weights (event_type : String) : ℚ :=
  if event_type = "devtools_detected" then 30
  else if event_type = "clipboard_paste" then 20
  else if event_type = "extension_detected" then 20
  else if event_type = "tab_switch" then 10
  else if event_type = "window_blur" then 8
  else if event_type = "visibility_hidden" then 10
  else if event_type = "suspicious_keyboard" then 15
  else if event_type = "clipboard_copy" then 3
  else if event_type = "clipboard_cut" then 2
  else 0

/-- One iteration of the loop in `RiskScorer._rule_based_scoring`
(`proctoring/risk_scorer.py`): running total and per-type counts. -/
def flat_rule_step (acc : ℚ × (String → ℕ)) (e : FlatEvent) : ℚ × (String → ℕ) :=
  let counts : String → ℕ :=
    fun t => if t = e.etype then acc.2 e.etype + 1 else acc.2 t
  let base_weight := event_weights e.etype
  let w : ℚ :=
    if e.etype = "clipboard_paste" then
      if 500 < e.textLength then base_weight + 20
      else if 200 < e.textLength then base_weight + 10
      else base_weight
    else if e.etype = "devtools_detected" then 30
    else if e.etype = "tab_switch" ∨ e.etype = "visibility_hidden" then
      let count := counts e.etype
      if 5 < count then base_weight + 5 * ((count : ℚ) - 5) else base_weight
    else base_weight
  (acc.1 + w, counts)

/-- `RiskScorer._rule_based_scoring`: fold and clamp with `min(100, ·)`. -/
def rule_based_scoring (events : List FlatEvent) : ℚ :=
  pymin 100 (events.foldl flat_rule_step (0, fun _ => 0)).1

/-- Python's `int(·)` on a (nonnegative or negative) number: truncation
toward zero, which on `ℚ` is `num / den` with `Int` T-division. -/
def pyInt (q : ℚ) : ℤ := q.num / (q.den : ℤ)

/-- The fields of the dict returned by `RiskScorer.calculate_risk` that
the claims are about. -/
structure RiskResult where
  rule_based_score : ℚ
  llm_risk_score : Option ℚ
  final_score : ℚ
deriving DecidableEq, Repr

/-- `RiskScorer.calculate_risk` (`proctoring/risk_scorer.py`), given the
outcome of the `_llm_analysis` call: the LLM path runs only when
`rule_based_score > 50 or len(events) > 20`; on success the final score
becomes `int(rule*0.4 + llm*0.6)` with `llm = analysis.get("risk_score", 0)`;
a raised error is swallowed and the rule-based final score kept. -/
def calculate_risk (events : List FlatEvent)
    (llm_outcome : Except String (Option ℚ)) : RiskResult :=
  let rule_based_score := rule_based_scoring events
  if 50 < rule_based_score ∨ 20 < events.length then
    match llm_outcome with
    | .ok analysis =>
      let llm_risk_score := analysis.getD 0
      { rule_based_score := rule_based_score
        llm_risk_score := some llm_risk_score
        final_score := ((pyInt (rule_based_score * (2/5) + llm_risk_score * (3/5)) : ℤ) : ℚ) }
    | .error _ =>
      { rule_based_score := rule_based_score
        llm_risk_score := none
        final_score := rule_based_score }
  else
    { rule_based_score := rule_based_score
      llm_risk_score := none
      final_score := rule_based_score }

/-! ## Code normalization and hashing
(`proctoring/code_analyzer.py` and
`proctoring/backend/analysis/code_analyzer.py`) -/

/-- Python's whitespace set for `str.strip()`. -/
def py_is_space (c : Char) : Bool :=
  c = ' ' ∨ c = '\t' ∨ c = '\n' ∨ c = '\r' ∨ c = Char.ofNat 11 ∨ c = Char.ofNat 12

/-- `str.lstrip()` on a character list. -/
def py_strip_left : List Char → List Char
  | c :: rest => if py_is_space c then py_strip_left rest else c :: rest
  | [] => []

/-- `str.strip()` on a character list (strip both ends). -/
def py_strip (cs : List Char) : List Char :=
  (py_strip_left (py_strip_left cs).reverse).reverse

/-- `str.split('\n')` on a character list (an empty input gives one empty
line, exactly like Python). -/
def split_newline : List Char → List (List Char)
  | [] => [[]]
  | '\n' :: rest => [] :: split_newline rest
  | c :: rest =>
    match split_newline rest with
    | l :: ls => (c :: l) :: ls
    | [] => [[c]]

/-- `'\n'.join(...)` on character-list lines. -/
def join_newline : List (List Char) → List Char
  | [] => []
  | [l] => l
  | l :: ls => l ++ '\n' :: join_newline ls

/-- Index of the first occurrence of `//` in a character list
(Python's `line.index('//')` guarded by `'//' in line`). -/
def find_double_slash : List Char → Option ℕ
  | '/' :: '/' :: _ => some 0
  | _ :: rest => (find_double_slash rest).map (· + 1)
  | [] => none

/-- `if '//' in line: line = line[:line.index('//')]` from
`CodeOriginalityAnalyzer._normalize_code`. -/
def strip_line_comment_chars (line : List Char) : List Char :=
  match find_double_slash line with
  | some i => line.take i
  | none => line

/-- A line's contribution to the normalized form: comment stripped, then
`strip()`ped. -/
def line_core_chars (line : List Char) : List Char :=
  py_strip (strip_line_comment_chars line)

/-- `CodeOriginalityAnalyzer._normalize_code`
(`proctoring/code_analyzer.py`): per line, cut at `//`, strip surrounding
whitespace, drop the line if empty, and re-join with newlines. -/
def normalize_code (code : String) : String :=
  String.mk (join_newline
    (((split_newline code.toList).map line_core_chars).filter (· ≠ [])))

/-- `CodeOriginalityAnalyzer._generate_code_hash`: SHA-256 of the
normalized code.  The hash primitive is an arbitrary function of the
hashed text, passed as a parameter (the claims only use that equal inputs
hash equally). -/
def generate_code_hash (sha256 : String → String) (code : String) : String :=
  sha256 (normalize_code code)

/-- Two line lists "differ only in per-line `//`-comment text, per-line
leading/trailing whitespace, and blank (or comment-only) lines": they are
equal after discarding lines whose `line_core_chars` is empty and
comparing the remaining lines by `line_core_chars`.  This is the claim's
hypothesis, stated generatively. -/
inductive CommentWsEquiv : List (List Char) → List (List Char) → Prop
  | nil : CommentWsEquiv [] []
  | blank_left {l : List Char} {ls1 ls2 : List (List Char)} :
      line_core_chars l = [] → CommentWsEquiv ls1 ls2 → CommentWsEquiv (l :: ls1) ls2
  | blank_right {l : List Char} {ls1 ls2 : List (List Char)} :
      line_core_chars l = [] → CommentWsEquiv ls1 ls2 → CommentWsEquiv ls1 (l :: ls2)
  | cons {l1 l2 : List Char} {ls1 ls2 : List (List Char)} :
      line_core_chars l1 = line_core_chars l2 → CommentWsEquiv ls1 ls2 →
      CommentWsEquiv (l1 :: ls1) (l2 :: ls2)

/-! ## Offline originality heuristic (`backend/app/scibox_client.py`) -/

/-- The `AIVerdict` pydantic model (`backend/app/models.py`):
`originality_score` is on the 0–1 scale. -/
structure AIVerdict where
  originality_score : ℚ
  is_copied : Bool
  explanation : String
deriving DecidableEq, Repr

/-- What `SciBoxClient.score_originality` does before any awaiting: either
an offline verdict computed locally, or an HTTP POST to the originality
endpoint (modelled by its url and payload — the network branch is the
only one that performs a request). -/
inductive OriginalityOutcome where
  | offline (verdict : AIVerdict)
  | network (url : String) (code : String) (language : String)
deriving DecidableEq, Repr

/-- `SciBoxClient.score_originality` (`backend/app/scibox_client.py`).
`if not self.api_key` treats both a missing and an empty key as absent.
Offline branch: `originality = 0.35 if len(code) > 1200 else 0.82`,
`copied = originality < 0.5`, fixed explanations. -/
def score_originality (api_key : Option String) (endpoint : String) (code : String)
    (language : Option String) : OriginalityOutcome :=
  if api_key.getD "" = "" then
    let originality : ℚ := if 1200 < code.length then 35/100 else 82/100
    let copied : Bool := decide (originality < 1/2)
    .offline
      { originality_score := originality
        is_copied := copied
        explanation :=
          if copied then "Offline-оценка: длинные вставки считаем подозрительными"
          else "Код выглядит оригинальным" }
  else
    .network (endpoint ++ "/code/originality") code (language.getD "unknown")

/-! ## Oracle client fallback (`config/scibox.py`,
`SciBoxClient.analyze_code_originality`)

`json.loads` is modelled by a small JSON parser over a Python-value type.
Deviations from CPython's parser are confined to pathological inputs the
theorems never touch (`\uXXXX` escapes are read literally, duplicate
object keys are kept first-wins instead of last-wins). -/

/-- A parsed JSON/Python value. -/
inductive PyVal where
  | num : ℚ → PyVal
  | str : String → PyVal
  | bool : Bool → PyVal
  | null : PyVal
  | arr : List PyVal → PyVal
  | obj : List (String × PyVal) → PyVal

/-- `d[k]` lookup on an object value, `none` on any other shape. -/
def PyVal.get? : PyVal → String → Option PyVal
  | .obj kvs, k => kvs.lookup k
  | _, _ => none

/-- Skip JSON whitespace. -/
def json_ws : List Char → List Char
  | c :: rest =>
    if c = ' ' ∨ c = '\t' ∨ c = '\n' ∨ c = '\r' then json_ws rest else c :: rest
  | [] => []

/-- Translate the character after a backslash in a JSON string. -/
def json_escape_char (c : Char) : Char :=
  if c = 'n' then '\n'
  else if c = 't' then '\t'
  else if c = 'r' then '\r'
  else if c = 'b' then Char.ofNat 8
  else if c = 'f' then Char.ofNat 12
  else c

/-- Parse a JSON string body (after the opening quote); returns the
string's characters and the remaining input. -/
def parse_string_body : List Char → Option (List Char × List Char)
  | [] => none
  | '"' :: rest => some ([], rest)
  | '\\' :: c :: rest =>
    (parse_string_body rest).map fun p => (json_escape_char c :: p.1, p.2)
  | c :: rest => (parse_string_body rest).map fun p => (c :: p.1, p.2)

/-- Split a leading run of decimal digits off a character list. -/
def take_digits : List Char → List Char × List Char
  | c :: rest =>
    if c.isDigit then
      let p := take_digits rest
      (c :: p.1, p.2)
    else ([], c :: rest)
  | [] => ([], [])

/-- Decimal value of a digit list. -/
def digits_to_nat (ds : List Char) : ℕ :=
  ds.foldl (fun n c => 10 * n + (c.toNat - 48)) 0

/-- Parse a JSON number (sign, integer part, optional fraction, optional
exponent). -/
def parse_number (cs : List Char) : Option (ℚ × List Char) :=
  let signAndRest : Bool × List Char :=
    match cs with
    | '-' :: r => (true, r)
    | _ => (false, cs)
  let ds := take_digits signAndRest.2
  if ds.1 = [] then none
  else
    let intPart : ℚ := (digits_to_nat ds.1 : ℕ)
    let afterFrac : Option (ℚ × List Char) :=
      match ds.2 with
      | '.' :: r =>
        let fs := take_digits r
        if fs.1 = [] then none
        else some (intPart + (digits_to_nat fs.1 : ℕ) / (10 : ℚ) ^ fs.1.length, fs.2)
      | _ => some (intPart, ds.2)
    match afterFrac with
    | none => none
    | some (v, cs2) =>
      let afterExp : Option (ℚ × List Char) :=
        match cs2 with
        | 'e' :: r | 'E' :: r =>
          let signExp : Bool × List Char :=
            match r with
            | '+' :: rr => (false, rr)
            | '-' :: rr => (true, rr)
            | _ => (false, r)
          let es := take_digits signExp.2
          if es.1 = [] then none
          else if signExp.1 then some (v / (10 : ℚ) ^ digits_to_nat es.1, es.2)
          else some (v * (10 : ℚ) ^ digits_to_nat es.1, es.2)
        | _ => some (v, cs2)
      match afterExp with
      | none => none
      | some (v2, cs3) => some (if signAndRest.1 then -v2 else v2, cs3)

mutual

/-- Parse one JSON value (fuel-bounded recursion). -/
def parse_value : ℕ → List Char → Option (PyVal × List Char)
  | 0, _ => none
  | fuel + 1, cs =>
    match json_ws cs with
    | [] => none
    | '{' :: rest =>
      match json_ws rest with
      | '}' :: r2 => some (.obj [], r2)
      | r1 => parse_obj_rest fuel r1 []
    | '[' :: rest =>
      match json_ws rest with
      | ']' :: r2 => some (.arr [], r2)
      | r1 => parse_arr_rest fuel r1 []
    | '"' :: rest => (parse_string_body rest).map fun p => (.str (String.mk p.1), p.2)
    | c :: rest =>
      if c = 't' ∧ ['r', 'u', 'e'].isPrefixOf rest then some (.bool true, rest.drop 3)
      else if c = 'f' ∧ ['a', 'l', 's', 'e'].isPrefixOf rest then some (.bool false, rest.drop 4)
      else if c = 'n' ∧ ['u', 'l', 'l'].isPrefixOf rest then some (.null, rest.drop 3)
      else (parse_number (c :: rest)).map fun p => (.num p.1, p.2)

/-- Parse the members of an object after at least one is required. -/
def parse_obj_rest : ℕ → List Char → List (String × PyVal) → Option (PyVal × List Char)
  | 0, _, _ => none
  | fuel + 1, cs, acc =>
    match json_ws cs with
    | '"' :: r =>
      match parse_string_body r with
      | none => none
      | some (k, r2) =>
        match json_ws r2 with
        | ':' :: r3 =>
          match parse_value fuel r3 with
          | none => none
          | some (v, r4) =>
            match json_ws r4 with
            | ',' :: r5 => parse_obj_rest fuel r5 (acc ++ [(String.mk k, v)])
            | '}' :: r5 => some (.obj (acc ++ [(String.mk k, v)]), r5)
            | _ => none
        | _ => none
    | _ => none

/-- Parse the items of an array after at least one is required. -/
def parse_arr_rest : ℕ → List Char → List PyVal → Option (PyVal × List Char)
  | 0, _, _ => none
  | fuel + 1, cs, acc =>
    match parse_value fuel cs with
    | none => none
    | some (v, r) =>
      match json_ws r with
      | ',' :: r2 => parse_arr_rest fuel r2 (acc ++ [v])
      | ']' :: r2 => some (.arr (acc ++ [v]), r2)
      | _ => none

end

/-- `json.loads`: parse a full document, requiring the input to be
consumed up to trailing whitespace.  The error payload carries the
CPython-style message prefix (its exact text is immaterial: callers only
catch). -/
def json_loads (text : String) : Except String PyVal :=
  match parse_value (text.length + 1) text.toList with
  | some (v, rest) =>
    if json_ws rest = [] then .ok v
    else .error ("Extra data: " ++ String.mk rest)
  | none => .error ("Expecting value: " ++ text)

/-- The markdown-fence stripping `analyze_code_originality` performs on
the oracle's response text before `json.loads` (`strip`, then drop a
leading ` ```json ` or ` ``` ` fence and a trailing ` ``` ` fence, then
`strip` again). -/
def strip_markdown_fences (response_text : String) : String :=
  let t := py_strip response_text.toList
  let t := if "```json".toList.isPrefixOf t then t.drop 7 else t
  let t := if "```".toList.isPrefixOf t then t.drop 3 else t
  let t := if "```".toList.isSuffixOf t then t.take (t.length - 3) else t
  String.mk (py_strip t)

/-- The `except`-branch verdict of
`SciBoxClient.analyze_code_originality`: neutral score 50, the exception
text in `suspicious_patterns`, fixed explanation. -/
def originality_fallback (err : String) : PyVal :=
  .obj
    [("originality_score", .num 50),
     ("suspicious_patterns", .arr [.str ("Ошибка анализа: " ++ err)]),
     ("explanation", .str "Не удалось проанализировать код")]

/-- `SciBoxClient.analyze_code_originality` (`config/scibox.py`), as a
function of the `chat_completion` outcome (`.error` models any raised
transport/HTTP exception, `.ok` the response text): strip fences, parse,
and on any failure return the fallback verdict. -/
def analyze_code_originality (chat_response : Except String String) : PyVal :=
  match chat_response with
  | .error e => originality_fallback e
  | .ok response_text =>
    match json_loads (strip_markdown_fences response_text) with
    | .ok v => v
    | .error e => originality_fallback e

/-- The chain failed: either the transport raised or the stripped
response text did not parse as JSON. -/
def oracle_chain_failed (chat_response : Except String String) : Prop :=
  match chat_response with
  | .error _ => True
  | .ok response_text => ∃ e, json_loads (strip_markdown_fences response_text) = .error e

/-- Modelled from the spec: a well-formed originality verdict is a dict
carrying the `originality_score`, `suspicious_patterns` and `explanation`
fields the docstring promises. -/
def is_well_formed_verdict (v : PyVal) : Bool :=
  (v.get? "originality_score").isSome && (v.get? "suspicious_patterns").isSome &&
    (v.get? "explanation").isSome

/-! ## Cosine similarity
(`proctoring/server/analyzers/code_originality.py`,
`CodeOriginalityAnalyzer._cosine_similarity`)

Machine floats are modelled as reals.  The source has two branches: the
numpy branch (taken when `import numpy` succeeds), where `np.dot` raises
`ValueError` on 1-D arrays of different lengths, and the pure-Python
fallback (on `ImportError`), which checks the lengths first and returns
`0.0` on mismatch.  Both then compute `dot/(‖a‖·‖b‖)` with a zero-norm
guard. -/

/-- `sum(a * b for a, b in zip(vec1, vec2))` (and `np.dot` on equal-length
1-D arrays). -/
def dot (vec1 vec2 : List ℝ) : ℝ := (List.zipWith (· * ·) vec1 vec2).sum

/-- `np.linalg.norm` / `sum(a*a for a in v) ** 0.5`. -/
noncomputable def vec_norm (v : List ℝ) : ℝ := Real.sqrt (dot v v)

open Classical in
/-- `CodeOriginalityAnalyzer._cosine_similarity`.  The first argument
selects the branch: `true` = numpy importable, `false` = pure-Python
fallback.  `.error` models the uncaught `ValueError` from `np.dot`. -/
noncomputable def cosine_similarity (numpy_available : Bool) (vec1 vec2 : List ℝ) :
    Except String ℝ :=
  if numpy_available then
    if vec1.length = vec2.length then
      let dot_product := dot vec1 vec2
      let norm1 := vec_norm vec1
      let norm2 := vec_norm vec2
      if norm1 = 0 ∨ norm2 = 0 then .ok 0
      else .ok (dot_product / (norm1 * norm2))
    else .error "ValueError: shapes not aligned"
  else
    if vec1.length ≠ vec2.length then .ok 0
    else
      let dot_product := dot vec1 vec2
      let norm1 := vec_norm vec1
      let norm2 := vec_norm vec2
      if norm1 = 0 ∨ norm2 = 0 then .ok 0
      else .ok (dot_product / (norm1 * norm2))

theorem dot_self_nonneg (v : List ℝ) : 0 ≤ dot v v := by
  induction v with
  | nil => simp [dot]
  | cons a t ih =>
    have : dot (a :: t) (a :: t) = a * a + dot t t := by simp [dot]
    rw [this]
    exact add_nonneg (mul_self_nonneg a) ih

/-! ## Store lemmas -/

theorem pymin_eq_min (a b : ℚ) : pymin a b = min a b := by
  rw [pymin, min_def]

theorem pymax_eq_max (a b : ℚ) : pymax a b = max a b := by
  rw [pymax, max_def]

theorem db_upsert_lookup_self (db : ScoreDB) (sid : String)
    (f : Option SessionScore → SessionScore) :
    (db_upsert db sid f).lookup sid = some (f (db.lookup sid)) := by
  induction db with
  | nil => simp [db_upsert, List.lookup]
  | cons kv rest ih =>
    obtain ⟨k, v⟩ := kv
    by_cases h : k = sid
    · subst h
      simp [db_upsert, List.lookup]
    · have hbeq : (sid == k) = false := beq_eq_false_iff_ne.mpr (Ne.symm h)
      simp [db_upsert, h, List.lookup, hbeq, ih]

theorem get_update_session_score (db : ScoreDB) (sid : String) (rule : ℚ)
    (fl : List String) (llm : Option ℚ) :
    get_session_score (update_session_score db sid rule fl llm) sid =
      some
        { rule_based_score := rule
          llm_risk_score := llm
          final_score := match llm with | some l => (rule + l) / 2 | none => rule
          flagged_events := fl
          llm_recommendation :=
            match get_session_score db sid with | some o => o.llm_recommendation | none => none
          llm_reasoning :=
            match get_session_score db sid with | some o => o.llm_reasoning | none => none } := by
  unfold update_session_score get_session_score
  rw [db_upsert_lookup_self]

theorem stored_flagged_update (db : ScoreDB) (sid : String) (r : ℚ)
    (fl : List String) (llm : Option ℚ) :
    stored_flagged (update_session_score db sid r fl llm) sid = fl := by
  simp [stored_flagged, get_update_session_score]

theorem stored_rule_update (db : ScoreDB) (sid : String) (r : ℚ)
    (fl : List String) (llm : Option ℚ) :
    stored_rule (update_session_score db sid r fl llm) sid = r := by
  simp [stored_rule, get_update_session_score]

/-! ## Claim C1 -/

/-- **C1, counterexample.**  The claim says `update_session_score` with a
present `llm_risk_score` stores `final_score = round(0.4·rule + 0.6·llm)`.
At `rule_based_score = 0`, `llm_risk_score = 100` the code stores
`(0 + 100) / 2 = 50`, while the claimed formula gives `round(60) = 60`. -/
theorem update_session_score_combiner_cex :
    stored_final (update_session_score [] "s1" 0 [] (some 100)) "s1" = some 50 ∧
    (round ((2/5 : ℚ) * 0 + (3/5 : ℚ) * 100) : ℤ) = 60 ∧ (50 : ℚ) ≠ 60 := by
  refine ⟨?_, ?_, by norm_num⟩
  · simp [stored_final, get_update_session_score]
    norm_num
  · norm_num

/-- **C1, amended.**  `update_session_score` stores
`final_score = rule_based_score` when `llm_risk_score` is absent and the
plain average `(rule + llm) / 2` when present; `calculate_risk`
(`proctoring/risk_scorer.py`) uses the 0.4/0.6 weights, but truncated with
`int(·)` rather than rounded, and only when its LLM branch is triggered
(`rule_score > 50` or more than 20 events) and the LLM call succeeds —
otherwise (branch not triggered, or the LLM call raised and was
swallowed) its `final_score` is the rule-based score and no LLM score is
recorded. -/
theorem score_combiner_formulas :
    (∀ (db : ScoreDB) (sid : String) (rule : ℚ) (fl : List String) (llm : Option ℚ),
        stored_final (update_session_score db sid rule fl llm) sid =
          some (match llm with | some l => (rule + l) / 2 | none => rule)) ∧
    (∀ (events : List FlatEvent) (analysis : Option ℚ),
        (50 < rule_based_scoring events ∨ 20 < events.length) →
        (calculate_risk events (.ok analysis)).final_score =
          ((pyInt (rule_based_scoring events * (2/5) + analysis.getD 0 * (3/5)) : ℤ) : ℚ)) ∧
    (∀ (events : List FlatEvent) (err : String),
        (50 < rule_based_scoring events ∨ 20 < events.length) →
        (calculate_risk events (.error err)).final_score = rule_based_scoring events ∧
        (calculate_risk events (.error err)).llm_risk_score = none) ∧
    (∀ (events : List FlatEvent) (outcome : Except String (Option ℚ)),
        ¬(50 < rule_based_scoring events ∨ 20 < events.length) →
        (calculate_risk events outcome).final_score = rule_based_scoring events ∧
        (calculate_risk events outcome).llm_risk_score = none) := by
  refine ⟨?_, ?_, ?_, ?_⟩
  · intro db sid rule fl llm
    simp [stored_final, get_update_session_score]
  · intro events analysis h
    simp [calculate_risk, h]
  · intro events err h
    simp [calculate_risk, h]
  · intro events outcome h
    simp [calculate_risk, h]

/-- Witness for `score_combiner_formulas`: 21 unknown-type events trigger
the LLM branch of `calculate_risk`, and with an LLM risk of 80 the final
score is `int(0·0.4 + 80·0.6)`. -/
theorem score_combiner_formulas_witness :
    ((50 : ℚ) < rule_based_scoring (List.replicate 21 ⟨"unknown", 0⟩) ∨
      20 < (List.replicate 21 (⟨"unknown", 0⟩ : FlatEvent)).length) ∧
    (calculate_risk (List.replicate 21 ⟨"unknown", 0⟩) (.ok (some 80))).final_score =
      ((pyInt (rule_based_scoring (List.replicate 21 ⟨"unknown", 0⟩) * (2/5) +
          (Option.getD (some 80) 0 : ℚ) * (3/5)) : ℤ) : ℚ) :=
  ⟨Or.inr (by simp), score_combiner_formulas.2.1 _ _ (Or.inr (by simp))⟩

/-! ## Claim C2 -/

/-- **C2, the code violates the claim.**  Start from a session whose
stored `rule_based_score` is 90.  Applying a deep-oracle result of 80 via
`request_llm_analysis` upserts `rule_based_score = 0` (the hard-coded zero
snapshot) and `final_score = (0 + 80) / 2 = 40`, regressing the score that
should have combined with the current rule score 90.  A later rule-only
`update_session_score` then overwrites the stored `llm_risk_score` with
`NULL`, erasing the deep-oracle result. -/
theorem request_llm_analysis_zero_snapshot :
    stored_rule (update_session_score [] "s1" 90 ["tab_switch"] none) "s1" = 90 ∧
    stored_rule (request_llm_analysis false (update_session_score [] "s1" 90 ["tab_switch"] none)
        "s1" ⟨some 80, [], none, none⟩) "s1" = 0 ∧
    stored_final (request_llm_analysis false (update_session_score [] "s1" 90 ["tab_switch"] none)
        "s1" ⟨some 80, [], none, none⟩) "s1" = some 40 ∧
    stored_llm (update_session_score (request_llm_analysis false
        (update_session_score [] "s1" 90 ["tab_switch"] none) "s1" ⟨some 80, [], none, none⟩)
        "s1" 20 [] none) "s1" = some none := by
  refine ⟨?_, ?_, ?_, ?_⟩ <;>
    · simp [stored_rule, stored_final, stored_llm, get_session_score, request_llm_analysis,
        update_session_score, db_upsert, db_set_recommendation, List.lookup]
      try norm_num

/-! ## Claim C3 -/

/-- **C3.**  `flag_suspicious_code` always leaves `"suspicious_code"` in
the stored flagged-events list, and when `originality_score < 50` it
replaces the stored `rule_based_score` by
`min(100, old + (50 - originality_score))`. -/
theorem flag_suspicious_code_penalty (db : ScoreDB) (sid : String)
    (originality_score : ℤ) (pats : List String) :
    "suspicious_code" ∈ stored_flagged (flag_suspicious_code db sid originality_score pats) sid ∧
    (originality_score < 50 →
      stored_rule (flag_suspicious_code db sid originality_score pats) sid =
        pymin 100 (stored_rule db sid + ((50 - originality_score : ℤ) : ℚ))) := by
  constructor
  · simp only [flag_suspicious_code, stored_flagged_update]
    split_ifs with h
    · exact h
    · simp
  · intro h
    simp only [flag_suspicious_code, stored_rule_update, if_pos h]

/-- Witness for `flag_suspicious_code_penalty` at `originality_score = 30`
on an empty store: the penalty added to the rule score is exactly 20. -/
theorem flag_suspicious_code_penalty_witness :
    (30 : ℤ) < 50 ∧
    stored_rule (flag_suspicious_code [] "s1" 30 []) "s1" =
      pymin 100 (stored_rule [] "s1" + ((50 - 30 : ℤ) : ℚ)) :=
  ⟨by norm_num, (flag_suspicious_code_penalty [] "s1" 30 []).2 (by norm_num)⟩

/-! ## Claim C4 -/

theorem event_rules_nonneg {s : String} {r : EventRule} (h : event_rules s = some r) :
    0 ≤ r.base_score ∧ 0 ≤ r.multiplier := by
  unfold event_rules at h
  split_ifs at h <;> (cases h; constructor <;> norm_num)

theorem calculate_dynamic_score_nonneg (e : Event) (r : EventRule)
    (hb : 0 ≤ r.base_score) (hc : 0 ≤ e.metaIntD "currentCount" 1) :
    0 ≤ calculate_dynamic_score e r := by
  simp only [calculate_dynamic_score]
  split_ifs <;>
    first
      | linarith
      | exact mul_nonneg (by norm_num) (by exact_mod_cast hc)

/-- The `score` value one loop iteration of `_analyze_by_rules` adds to
`total_score`, as a function of the event and its prior occurrence
count. -/
def event_contribution (count0 : ℕ) (e : Event) : ℚ :=
  match event_rules e.event_type with
  | none => 0
  | some rule =>
    if 1 < count0 + 1 then
      (if rule.dynamic ∧ e.metadata ≠ [] then calculate_dynamic_score e rule
       else rule.base_score) * rule.multiplier ^ (count0 + 1 - 1)
    else
      if rule.dynamic ∧ e.metadata ≠ [] then calculate_dynamic_score e rule
      else rule.base_score

theorem rule_step_total (acc : RuleAcc) (e : Event) :
    (rule_step acc e).total = acc.total + event_contribution (acc.counts e.event_type) e := by
  unfold rule_step event_contribution
  cases hrule : event_rules e.event_type with
  | none => simp
  | some r => simp

theorem event_contribution_nonneg (count0 : ℕ) (e : Event)
    (hc : 0 ≤ e.metaIntD "currentCount" 1) :
    0 ≤ event_contribution count0 e := by
  unfold event_contribution
  cases hrule : event_rules e.event_type with
  | none => simp
  | some r =>
    obtain ⟨hb, hm⟩ := event_rules_nonneg hrule
    simp only []
    split_ifs with h1 h2 h3
    · exact mul_nonneg (calculate_dynamic_score_nonneg e r hb hc) (pow_nonneg hm _)
    · exact mul_nonneg hb (pow_nonneg hm _)
    · exact calculate_dynamic_score_nonneg e r hb hc
    · exact hb

theorem foldl_rule_step_total_nonneg (events : List Event) (acc : RuleAcc)
    (h : ∀ e ∈ events, 0 ≤ e.metaIntD "currentCount" 1) (hacc : 0 ≤ acc.total) :
    0 ≤ (events.foldl rule_step acc).total := by
  induction events generalizing acc with
  | nil => simpa using hacc
  | cons e t ih =>
    simp only [List.foldl_cons]
    refine ih _ (fun x hx => h x (List.mem_cons_of_mem _ hx)) ?_
    rw [rule_step_total]
    have := event_contribution_nonneg (acc.counts e.event_type) e (h e (List.mem_cons_self _ _))
    linarith

/-- **C4, counterexample.**  The rule engine's output is claimed to lie in
`[0, 100]` for arbitrary metadata.  A single `face_detection` event with
`severity = "critical"` and `currentCount = -1` scores
`15 · (-1) = -15`, and the engine only clamps from above, so the output is
`min(100, -15) = -15 < 0`. -/
theorem rule_engine_negative_score_cex :
    (analyze_by_rules
        [⟨"face_detection", [("severity", .s "critical"), ("currentCount", .i (-1))], 0⟩]).score
      = -15 ∧
    ¬(0 ≤ (analyze_by_rules
        [⟨"face_detection", [("severity", .s "critical"), ("currentCount", .i (-1))], 0⟩]).score) := by
  have h : (analyze_by_rules
      [⟨"face_detection", [("severity", .s "critical"), ("currentCount", .i (-1))], 0⟩]).score
      = -15 := by
    simp [analyze_by_rules, rule_step, event_rules, calculate_dynamic_score, Event.metaIntD,
      List.lookup, pymin]
    norm_num
  exact ⟨h, by rw [h]; norm_num⟩

/-- **C4, amended.**  The rule engine's score is always clamped from above
to 100, and it is nonnegative (hence in `[0, 100]`) provided every event's
`currentCount` metadata value is a nonnegative integer (with the source's
default of 1 when absent) — the only quantity that enters a score with a
sign, via the `face_detection`-critical branch `15 * currentCount`. -/
theorem rule_engine_score_bounds :
    (∀ events : List Event, (analyze_by_rules events).score ≤ 100) ∧
    (∀ events : List Event,
      (∀ e ∈ events, 0 ≤ e.metaIntD "currentCount" 1) →
      0 ≤ (analyze_by_rules events).score ∧ (analyze_by_rules events).score ≤ 100) := by
  have hub : ∀ events : List Event, (analyze_by_rules events).score ≤ 100 := by
    intro events
    unfold analyze_by_rules
    exact pymin_le_left _ _
  refine ⟨hub, fun events h => ⟨?_, hub events⟩⟩
  unfold analyze_by_rules
  exact le_pymin _ _ _ (by norm_num) (foldl_rule_step_total_nonneg events _ h (le_refl 0))

/-- Witness for `rule_engine_score_bounds`: a critical `face_detection`
event with `currentCount = 2` satisfies the hypothesis and yields a score
in `[0, 100]`. -/
theorem rule_engine_score_bounds_witness :
    (∀ e ∈ [(⟨"face_detection", [("severity", .s "critical"), ("currentCount", .i 2)], 0⟩ : Event)],
      0 ≤ e.metaIntD "currentCount" 1) ∧
    0 ≤ (analyze_by_rules
        [⟨"face_detection", [("severity", .s "critical"), ("currentCount", .i 2)], 0⟩]).score := by
  have h : ∀ e ∈ [(⟨"face_detection", [("severity", .s "critical"), ("currentCount", .i 2)], 0⟩ : Event)],
      0 ≤ e.metaIntD "currentCount" 1 := by
    intro e he
    simp only [List.mem_singleton] at he
    subst he
    simp [Event.metaIntD, List.lookup]
  exact ⟨h, (rule_engine_score_bounds.2 _ h).1⟩

/-! ## Claim C5 -/

/-- **C5.**  The two-event input of one `devtools_detected` event and one
`clipboard_paste` event with `textLength = 600` yields rule score
`30 + (5 + 40) = 75`, the `devtools_with_paste` critical pattern adds 30,
and the final clamp caps `105` at exactly `100`; both event types end up
in the flagged set. -/
theorem devtools_paste_scenario :
    (analyze_session_events
        [⟨"devtools_detected", [], 0⟩,
         ⟨"clipboard_paste", [("textLength", .i 600)], 0⟩]).final_score = 100 ∧
    "devtools_detected" ∈ (analyze_session_events
        [⟨"devtools_detected", [], 0⟩,
         ⟨"clipboard_paste", [("textLength", .i 600)], 0⟩]).flagged_events ∧
    "clipboard_paste" ∈ (analyze_session_events
        [⟨"devtools_detected", [], 0⟩,
         ⟨"clipboard_paste", [("textLength", .i 600)], 0⟩]).flagged_events := by
  refine ⟨?_, ?_, ?_⟩ <;>
    · simp [analyze_session_events, analyze_by_rules, rule_step, event_rules,
        calculate_dynamic_score, Event.metaIntD, List.lookup, pymin, pymax,
        detect_suspicious_patterns, calculate_final_score, meta_severity_is, List.filter,
        sort_by_timestamp_desc, adjacent_abs_diffs, get_flagged_events, add_flag]
      try norm_num

/-! ## Claim C10 -/

/-- **C10.**  On its first occurrence (prior per-type count 0), a
`clipboard_paste` event with an empty metadata dict contributes exactly
the static base score 5 — `event.get("metadata")` is falsy, so the
dynamic branch is skipped — while a paste with metadata
`{textLength: 0}` takes the dynamic small-paste band `5 + 3 = 8`; the two
therefore score differently. -/
theorem clipboard_paste_empty_metadata_score (acc : RuleAcc)
    (h : acc.counts "clipboard_paste" = 0) :
    (rule_step acc ⟨"clipboard_paste", [], 0⟩).total = acc.total + 5 ∧
    (rule_step acc ⟨"clipboard_paste", [("textLength", .i 0)], 0⟩).total = acc.total + 8 ∧
    (analyze_by_rules [⟨"clipboard_paste", [], 0⟩]).score = 5 ∧
    (analyze_by_rules [⟨"clipboard_paste", [("textLength", .i 0)], 0⟩]).score = 8 ∧
    (5 : ℚ) ≠ 8 := by
  refine ⟨?_, ?_, ?_, ?_, by norm_num⟩
  · rw [rule_step_total, h]
    simp [event_contribution, event_rules, calculate_dynamic_score, Event.metaIntD, List.lookup]
  · rw [rule_step_total, h]
    simp [event_contribution, event_rules, calculate_dynamic_score, Event.metaIntD, List.lookup]
    norm_num
  · simp [analyze_by_rules, rule_step, event_rules, calculate_dynamic_score, Event.metaIntD,
      List.lookup, pymin]
    norm_num
  · simp [analyze_by_rules, rule_step, event_rules, calculate_dynamic_score, Event.metaIntD,
      List.lookup, pymin]
    norm_num

/-- Witness for `clipboard_paste_empty_metadata_score` on the initial
accumulator (count 0). -/
theorem clipboard_paste_empty_metadata_score_witness :
    (RuleAcc.mk 0 (fun _ => 0) []).counts "clipboard_paste" = 0 ∧
    (rule_step ⟨0, fun _ => 0, []⟩ ⟨"clipboard_paste", [], 0⟩).total = (0 : ℚ) + 5 :=
  ⟨rfl, (clipboard_paste_empty_metadata_score ⟨0, fun _ => 0, []⟩ rfl).1⟩

/-! ## Claim C9 -/

/-- **C9.**  With no oracle credential configured, `score_originality`
takes the offline branch (no network request — the result is the
`.offline` constructor), and the verdict depends only on payload size:
code longer than 1200 characters scores `0.35` (on the client's 0–1
scale, i.e. `0.35·100` on the 0–100 scale) with `is_copied = true`,
shorter code scores `0.82` with `is_copied = false`, and the copied flag
holds exactly when the score is below the `0.5` midpoint. -/
theorem score_originality_offline (endpoint code : String) (language : Option String) :
    ∃ verdict : AIVerdict,
      score_originality none endpoint code language = .offline verdict ∧
      verdict.originality_score = (if 1200 < code.length then (35/100 : ℚ) else 82/100) ∧
      (verdict.is_copied = true ↔ verdict.originality_score < 1/2) ∧
      (1200 < code.length → verdict.originality_score = 35/100 ∧ verdict.is_copied = true) ∧
      (¬1200 < code.length → verdict.originality_score = 82/100 ∧ verdict.is_copied = false) := by
  by_cases hlen : 1200 < code.length
  · refine ⟨⟨35/100, true, "Offline-оценка: длинные вставки считаем подозрительными"⟩,
      ?_, ?_, ?_, ?_, ?_⟩
    · simp [score_originality, hlen]
      norm_num
    · simp [hlen]
    · simp
      norm_num
    · intro _; exact ⟨rfl, rfl⟩
    · intro hc; exact absurd hlen hc
  · refine ⟨⟨82/100, false, "Код выглядит оригинальным"⟩, ?_, ?_, ?_, ?_, ?_⟩
    · simp [score_originality, hlen]
      norm_num
    · simp [hlen]
    · simp
      norm_num
    · intro hc; exact absurd hc hlen
    · intro _; exact ⟨rfl, rfl⟩

/-! ## Claim C6 -/

/-- **C6, counterexample.**  The claim says `analyze_code_originality`
returns a well-formed verdict for *every* oracle response text.  The
response `"{}"` parses successfully, so the code returns the parsed empty
dict unchecked: the result has no `originality_score` (and no fallback is
applied), so it is not a well-formed verdict. -/
theorem analyze_code_originality_unchecked_cex :
    analyze_code_originality (.ok "{}") = .obj [] ∧
    is_well_formed_verdict (analyze_code_originality (.ok "{}")) = false ∧
    (analyze_code_originality (.ok "{}")).get? "originality_score" = none :=
  ⟨rfl, rfl, rfl⟩

/-- **C6, amended.**  `analyze_code_originality` is total (it is a plain
function of the transport outcome), and whenever the transport raises or
the stripped response fails to parse as JSON, it returns the fallback
verdict: a well-formed dict with `originality_score = 50` and an
explanation noting the failure.  When the parse succeeds, however, the
parsed value is returned as-is, whatever its shape. -/
theorem analyze_code_originality_fallback (chat_response : Except String String)
    (h : oracle_chain_failed chat_response) :
    is_well_formed_verdict (analyze_code_originality chat_response) = true ∧
    (analyze_code_originality chat_response).get? "originality_score" = some (.num 50) ∧
    (analyze_code_originality chat_response).get? "explanation" =
      some (.str "Не удалось проанализировать код") := by
  cases chat_response with
  | error e =>
    exact ⟨rfl, rfl, rfl⟩
  | ok response_text =>
    obtain ⟨e, he⟩ := h
    simp only [analyze_code_originality, he]
    exact ⟨rfl, rfl, rfl⟩

/-- Witness for `analyze_code_originality_fallback`: the unparseable
response `"not json"` triggers the neutral fallback. -/
theorem analyze_code_originality_fallback_witness :
    oracle_chain_failed (.ok "not json") ∧
    (analyze_code_originality (.ok "not json")).get? "originality_score" = some (.num 50) := by
  have h : oracle_chain_failed (.ok "not json") := ⟨"Expecting value: not json", rfl⟩
  exact ⟨h, (analyze_code_originality_fallback _ h).2.1⟩

/-! ## Claim C7 -/

theorem cosine_eq_one_of_self (b : Bool) (v : List ℝ) (h : vec_norm v ≠ 0) :
    cosine_similarity b v v = .ok 1 := by
  have hd : dot v v ≠ 0 := fun h0 => h (by rw [vec_norm, h0, Real.sqrt_zero])
  have hmul : vec_norm v * vec_norm v = dot v v := by
    rw [vec_norm]
    exact Real.mul_self_sqrt (dot_self_nonneg v)
  have hcond : ¬(vec_norm v = 0 ∨ vec_norm v = 0) := by
    rintro (h1 | h1) <;> exact h h1
  have hval : dot v v / (vec_norm v * vec_norm v) = 1 := by
    rw [hmul]
    exact div_self hd
  cases b <;> simp [cosine_similarity, hcond, hval, h]

theorem cosine_zero_norm (b : Bool) (v w : List ℝ) (hl : v.length = w.length)
    (h : vec_norm v = 0 ∨ vec_norm w = 0) :
    cosine_similarity b v w = .ok 0 := by
  cases b <;> simp [cosine_similarity, hl, h]

/-- **C7, counterexample.**  The claim says vectors of differing
dimensionality give similarity `0` rather than an error.  In the numpy
branch (numpy importable — the branch the source prefers), `np.dot`
raises `ValueError` on `[1]` vs `[1, 2]`, and only `ImportError` is
caught, so `_cosine_similarity` raises instead of returning a value. -/
theorem cosine_dim_mismatch_cex :
    cosine_similarity true [1] [1, 2] = .error "ValueError: shapes not aligned" ∧
    ∀ q : ℝ, cosine_similarity true [1] [1, 2] ≠ .ok q := by
  have h : cosine_similarity true [1] [1, 2] = .error "ValueError: shapes not aligned" := by
    simp [cosine_similarity]
  refine ⟨h, fun q hq => ?_⟩
  rw [h] at hq
  cases hq

/-- **C7, amended.**  In both branches: a vector of nonzero norm has
self-similarity exactly 1, and a zero-norm operand (at equal
dimensionality) gives 0.  On differing dimensionality the pure-Python
fallback branch returns 0, but the numpy branch raises `ValueError`
instead — the function is total and matches the claim only in the
fallback branch. -/
theorem cosine_similarity_amended :
    (∀ (b : Bool) (v : List ℝ), vec_norm v ≠ 0 → cosine_similarity b v v = .ok 1) ∧
    (∀ (b : Bool) (v w : List ℝ), v.length = w.length →
        vec_norm v = 0 ∨ vec_norm w = 0 → cosine_similarity b v w = .ok 0) ∧
    (∀ v w : List ℝ, v.length ≠ w.length → cosine_similarity false v w = .ok 0) ∧
    (∀ v w : List ℝ, v.length ≠ w.length →
        cosine_similarity true v w = .error "ValueError: shapes not aligned") := by
  refine ⟨cosine_eq_one_of_self, cosine_zero_norm, ?_, ?_⟩
  · intro v w hl
    simp [cosine_similarity, hl]
  · intro v w hl
    simp [cosine_similarity, hl]

/-- Witness for `cosine_similarity_amended`: `[1]` has nonzero norm and
self-similarity exactly 1 in the fallback branch. -/
theorem cosine_similarity_amended_witness :
    vec_norm [1] ≠ 0 ∧ cosine_similarity false [1] [1] = .ok 1 := by
  have h : vec_norm [1] ≠ 0 := by
    have hd : dot [1] [1] = 1 := by simp [dot]
    rw [vec_norm, hd, Real.sqrt_one]
    norm_num
  exact ⟨h, cosine_similarity_amended.1 false [1] h⟩

/-! ## Claim C8 -/

theorem normalized_lines_of_equiv {ls1 ls2 : List (List Char)} (h : CommentWsEquiv ls1 ls2) :
    (ls1.map line_core_chars).filter (· ≠ []) = (ls2.map line_core_chars).filter (· ≠ []) := by
  induction h with
  | nil => rfl
  | blank_left hl _ ih =>
    simp only [List.map_cons, List.filter_cons, hl]
    simpa using ih
  | blank_right hl _ ih =>
    simp only [List.map_cons, List.filter_cons, hl]
    simpa using ih
  | cons hl _ ih =>
    simp only [List.map_cons, List.filter_cons, hl, ih]

/-- **C8.**  Two code strings whose line lists differ only in per-line
`//`-comment text, per-line leading/trailing whitespace, and blank (or
comment-only) lines normalize to the same string, so any content hash of
the normalized form — in particular SHA-256 as used by
`_generate_code_hash` — is equal on the two. -/
theorem normalized_hash_equiv (code1 code2 : String)
    (h : CommentWsEquiv (split_newline code1.toList) (split_newline code2.toList)) :
    normalize_code code1 = normalize_code code2 ∧
    ∀ sha256 : String → String,
      generate_code_hash sha256 code1 = generate_code_hash sha256 code2 := by
  have hn : normalize_code code1 = normalize_code code2 := by
    unfold normalize_code
    rw [normalized_lines_of_equiv h]
  exact ⟨hn, fun sha256 => by unfold generate_code_hash; rw [hn]⟩

/-- Witness for `normalized_hash_equiv`: two snippets differing in
comment text, line-edge whitespace, a blank line and a comment-only line
normalize identically. -/
theorem normalized_hash_equiv_witness :
    CommentWsEquiv (split_newline "a = b // one\n\nc = d".toList)
      (split_newline "  a = b   // two\nc = d  \n// tail".toList) ∧
    normalize_code "a = b // one\n\nc = d" =
      normalize_code "  a = b   // two\nc = d  \n// tail" := by
  have h1 : split_newline "a = b // one\n\nc = d".toList =
      ["a = b // one".toList, [], "c = d".toList] := by decide
  have h2 : split_newline "  a = b   // two\nc = d  \n// tail".toList =
      ["  a = b   // two".toList, "c = d  ".toList, "// tail".toList] := by decide
  have heq : CommentWsEquiv (split_newline "a = b // one\n\nc = d".toList)
      (split_newline "  a = b   // two\nc = d  \n// tail".toList) := by
    rw [h1, h2]
    refine CommentWsEquiv.cons (by decide) ?_
    refine CommentWsEquiv.blank_left (by decide) ?_
    refine CommentWsEquiv.cons (by decide) ?_
    exact CommentWsEquiv.blank_right (by decide) CommentWsEquiv.nil
  exact ⟨heq, (normalized_hash_equiv _ _ heq).1⟩

end Proctoring
